import Mathlib

/-!
# A verification development for the quansync dual-mode execution engine

This file gives a shallow embedding of `src/index.ts` (the dual-mode
sync/async driver of the quansync package, with the `onYield` hook of the
variant source file that extends it) and proves the specified properties of
the drivers `iterateSync` / `iterateAsync`, the yield resolver
`unwrapYield`, and the constructors `fromObject` / `fromPromise` /
`toGenerator`.

Generator bodies are represented by a small first-order syntax (`Body` /
`Expr`) interpreted over a universe `Val` of JavaScript values; supplied
sync/async implementations are arbitrary Lean functions reached through an
implementation table (`Impls`), so theorems quantify over them.  Promises
are modelled by their settled outcome; `await` performs the thenable
flattening that JavaScript promise resolution performs.  All driver
functions are fuelled (`Option` result, `none` = fuel exhausted), since
generator driving does not structurally terminate.
-/

namespace Quansync

mutual

/-- The universe of JavaScript values the engine manipulates:
`undefined` is `undefined`; `sym` is the `GET_IS_ASYNC` sentinel symbol;
`errObj name msg` is an `Error` instance (a `QuansyncError` carries name
`"QuansyncError"`); `prom` is a promise, described by its eventual settled
outcome; `qgen body env kont` is a quansync generator object (it carries
the `__quansync` marker, `Symbol.iterator`, and an attached `.then`);
`pgen id` is a plain host generator object without the `__quansync`
marker, identified by `id`. -/
inductive Val where
  | undefined
  | prim (n : Nat)
  | vstr (s : String)
  | vbool (b : Bool)
  | sym
  | errObj (name msg : String)
  | prom (p : Prom)
  | qgen (body : Body) (env : List Val) (kont : Konts)
  | pgen (id : Nat)

/-- A promise, by its settled outcome: resolved with a value (which may
itself be thenable and is flattened by `await`) or rejected with a reason. -/
inductive Prom where
  | resolved (v : Val)
  | rejected (e : Val)

/-- The stack of `try`/`catch` frames currently protecting a generator
body position: each frame holds the handler body and its environment. -/
inductive Konts where
  | knil
  | kcatch (h : Body) (henv : List Val) (rest : Konts)

/-- Syntax of generator bodies.  `yieldBind e k` yields the value of `e`
and continues as `k` with the resumed value pushed onto the environment;
`tryB t h` runs `t` under a catch handler `h` (the caught value is pushed
onto `h`'s environment); `ret` returns from the generator (skipping catch
frames, as `return` inside `try` does); `throwB` throws the value of `e`. -/
inductive Body where
  | ret (e : Expr)
  | throwB (e : Expr)
  | yieldBind (e : Expr) (k : Body)
  | ite (c : Expr) (t f : Body)
  | tryB (t h : Body)

/-- Expressions: literals, de Bruijn variables into the environment
(most recently bound first), a call of a supplied implementation from the
implementation table, and invocation of a quansync function's default
call, which allocates a fresh quansync generator over body `b` with the
evaluated arguments as environment (running no body code, as calling a
JavaScript generator function does not). -/
inductive Expr where
  | lit (v : Val)
  | var (i : Nat)
  | callImpl (f : Nat) (args : List Expr)
  | mkQgen (b : Body) (args : List Expr)

end

/-- Synchronous outcome of a JavaScript call: a returned value or a thrown
value. -/
abbrev Res := Except Val Val

/-- A table of supplied implementations (`options.sync`, `options.async`,
...), each mapping an argument list to a synchronous outcome. -/
abbrev Impls := Nat → List Val → Res

/-- The `onYield` hook: receives the yielded value and the mode flag and
produces the replacement value (or throws). -/
abbrev Hook := Val → Bool → Res

/-- `DEFAULT_ON_YIELD`: the identity hook, used when no `onYield` option is
supplied (and always for nested drives started by `unwrapYield`). -/
def idHook : Hook := fun v _ => .ok v

/-- `new QuansyncError()` with the default message. -/
def quansyncErrorV : Val :=
  .errObj "QuansyncError" "Unexpected promise in sync context"

/-- JavaScript truthiness of a modelled value. -/
def truthy : Val → Bool
  | .undefined => false
  | .prim n => n ≠ 0
  | .vstr s => s ≠ ""
  | .vbool b => b
  | .sym => true
  | .errObj _ _ => true
  | .prom _ => true
  | .qgen _ _ _ => true
  | .pgen _ => true

/-- `isThenable`: the value is an object with a callable `then`.  Promises
are; quansync generator objects are (the constructor attaches `.then`);
nothing else in the universe is. -/
def isThenable : Val → Bool
  | .prom _ => true
  | .qgen _ _ _ => true
  | _ => false

/-- `isQuansyncGenerator`: an object with `Symbol.iterator` and the
`__quansync` marker.  Exactly the quansync generator objects; in
particular a plain host generator (`pgen`) has the iterator but not the
marker. -/
def isQuansyncGenerator : Val → Bool
  | .qgen _ _ _ => true
  | _ => false

/-- Result of advancing a generator one step: it paused at a yield
(carrying the yielded value and the continuation: body, environment and
catch-frame stack), finished with a return value, or let a thrown value
escape. -/
inductive StepOut where
  | yielded (v : Val) (k : Body) (env : List Val) (kont : Konts)
  | finished (v : Val)
  | raised (e : Val)

mutual

/-- Evaluate an expression in an environment (may throw, via a supplied
implementation that throws). -/
def evalExpr (impls : Impls) : Expr → List Val → Res
  | .lit v, _ => .ok v
  | .var i, env => .ok (env.getD i .undefined)
  | .callImpl f args, env =>
    match evalExprs impls args env with
    | .ok vs => impls f vs
    | .error e => .error e
  | .mkQgen b args, env =>
    match evalExprs impls args env with
    | .ok vs => .ok (.qgen b vs .knil)
    | .error e => .error e

/-- Evaluate a list of argument expressions left to right. -/
def evalExprs (impls : Impls) : List Expr → List Val → Except Val (List Val)
  | [], _ => .ok []
  | e :: es, env =>
    match evalExpr impls e env with
    | .ok v =>
      match evalExprs impls es env with
      | .ok vs => .ok (v :: vs)
      | .error er => .error er
    | .error er => .error er

end

mutual

/-- Run a generator body until it yields, returns, or lets a thrown value
escape.  `return` skips catch frames; `throw` and a throwing expression
unwind to the innermost catch frame. -/
def runBody (impls : Impls) : Nat → Body → List Val → Konts → Option StepOut
  | 0, _, _, _ => none
  | fuel + 1, b, env, k =>
    match b with
    | .ret e =>
      match evalExpr impls e env with
      | .ok v => some (.finished v)
      | .error er => unwindK impls fuel er k
    | .throwB e =>
      match evalExpr impls e env with
      | .ok v => unwindK impls fuel v k
      | .error er => unwindK impls fuel er k
    | .yieldBind e kb =>
      match evalExpr impls e env with
      | .ok v => some (.yielded v kb env k)
      | .error er => unwindK impls fuel er k
    | .ite c t f =>
      match evalExpr impls c env with
      | .ok v => if truthy v then runBody impls fuel t env k else runBody impls fuel f env k
      | .error er => unwindK impls fuel er k
    | .tryB t h => runBody impls fuel t env (.kcatch h env k)

/-- Deliver a thrown value to the innermost catch frame (the caught value
is pushed onto the handler's environment), or let it escape the
generator. -/
def unwindK (impls : Impls) : Nat → Val → Konts → Option StepOut
  | 0, _, _ => none
  | _ + 1, e, .knil => some (.raised e)
  | fuel + 1, e, .kcatch h henv rest => runBody impls fuel h (e :: henv) rest

/-- `iterateSync(generator, onYield)`: drive a generator to completion in
blocking mode.  The first `generator.next()` runs the body to its first
suspension; the loop is `syncLoop`. -/
def iterateSync (impls : Impls) (hook : Hook) : Nat → Body → List Val → Konts → Option Res
  | 0, _, _, _ => none
  | fuel + 1, b, env, k => syncLoop impls hook fuel (runBody impls fuel b env k)

/-- The `while (!current.done)` loop of `iterateSync`: on each yield,
apply the hook (throwing hooks are injected via `generator.throw`),
resolve the replaced value with `unwrapYield` (sync), and feed the result
— or inject the error — back into the generator.  On completion the final
value is passed through `unwrapYield` once more, exactly as the source's
`return unwrapYield(current.value)`. -/
def syncLoop (impls : Impls) (hook : Hook) : Nat → Option StepOut → Option Res
  | 0, _ => none
  | _ + 1, none => none
  | fuel + 1, some (.finished v) => unwrapSync impls fuel v
  | _ + 1, some (.raised e) => some (.error e)
  | fuel + 1, some (.yielded v kb env kont) =>
    match hook v false with
    | .error er => syncLoop impls hook fuel (unwindK impls fuel er kont)
    | .ok v' =>
      match unwrapSync impls fuel v' with
      | none => none
      | some (.ok w) => syncLoop impls hook fuel (runBody impls fuel kb (w :: env) kont)
      | some (.error er) => syncLoop impls hook fuel (unwindK impls fuel er kont)

/-- `unwrapYield(value)` as called from `iterateSync` (the `isAsync`
argument is omitted, i.e. `undefined`): the sentinel resolves to the
`isAsync` argument itself — `undefined`; a quansync generator is driven
recursively with `iterateSync` (with no hook, as in the source); any
other thenable raises `QuansyncError`; plain values pass through. -/
def unwrapSync (impls : Impls) : Nat → Val → Option Res
  | 0, _ => none
  | _ + 1, .sym => some (.ok .undefined)
  | fuel + 1, .qgen b env k => iterateSync impls idHook fuel b env k
  | _ + 1, .prom _ => some (.error quansyncErrorV)
  | _ + 1, v => some (.ok v)

/-- `iterateAsync(generator, onYield)`: drive a generator to completion in
async mode.  The result models the settled outcome of the returned
promise; an `.error` outcome is a rejection (an async function never
throws synchronously). -/
def iterateAsync (impls : Impls) (hook : Hook) : Nat → Body → List Val → Konts → Option Res
  | 0, _, _, _ => none
  | fuel + 1, b, env, k => asyncLoop impls hook fuel (runBody impls fuel b env k)

/-- The loop of `iterateAsync`: on each yield, apply the hook, resolve
with `await unwrapYield(value, true)`, and feed the result — or inject
the rejection reason — back.  On completion the final value is returned
from the async function, which flattens it by promise resolution
(`awaitVal`). -/
def asyncLoop (impls : Impls) (hook : Hook) : Nat → Option StepOut → Option Res
  | 0, _ => none
  | _ + 1, none => none
  | fuel + 1, some (.finished v) => awaitVal impls fuel v
  | _ + 1, some (.raised e) => some (.error e)
  | fuel + 1, some (.yielded v kb env kont) =>
    match hook v true with
    | .error er => asyncLoop impls hook fuel (unwindK impls fuel er kont)
    | .ok v' =>
      match resolveAsync impls fuel v' with
      | none => none
      | some (.ok w) => asyncLoop impls hook fuel (runBody impls fuel kb (w :: env) kont)
      | some (.error er) => asyncLoop impls hook fuel (unwindK impls fuel er kont)

/-- `await unwrapYield(value, true)`: the sentinel resolves to `true`; a
quansync generator is driven recursively with `iterateAsync` (no hook)
and the resulting promise awaited; any other value is awaited (promise
resolution flattens thenables, everything else resolves immediately). -/
def resolveAsync (impls : Impls) : Nat → Val → Option Res
  | 0, _ => none
  | _ + 1, .sym => some (.ok (.vbool true))
  | fuel + 1, .qgen b env k => iterateAsync impls idHook fuel b env k
  | fuel + 1, v => awaitVal impls fuel v

/-- JavaScript `await` / promise resolution of a value: a promise resolved
with `v` awaits `v` in turn (thenable flattening; a rejection reason is
delivered as-is); a quansync generator object is thenable through its
attached `.then`, which resolves it via the async driver; any other value
resolves immediately. -/
def awaitVal (impls : Impls) : Nat → Val → Option Res
  | 0, _ => none
  | fuel + 1, .prom (.resolved v) => awaitVal impls fuel v
  | _ + 1, .prom (.rejected e) => some (.error e)
  | fuel + 1, .qgen b env k => iterateAsync impls idHook fuel b env k
  | _ + 1, v => some (.ok v)

end

/-! ## The constructors -/

/-- The argument expressions `var s, var (s+1), …, var (s+n-1)`: how a
body forwards the original call arguments once later bindings have been
pushed in front of them. -/
def argVars : Nat → Nat → List Expr
  | 0, _ => []
  | n + 1, s => .var s :: argVars n (s + 1)

/-- The internal wrapper generator body `fromObject` builds around an
implementation pair (table slots `sIdx` for `options.sync`, `aIdx` for
`options.async`; `n` call arguments in the initial environment):
`const isAsync = yield GET_IS_ASYNC; if (isAsync) return yield
options.async(...args); return options.sync(...args)`. -/
def objBody (sIdx aIdx n : Nat) : Body :=
  .yieldBind (.lit .sym)
    (.ite (.var 0)
      (.yieldBind (.callImpl aIdx (argVars n 1)) (.ret (.var 0)))
      (.ret (.callImpl sIdx (argVars n 1))))

/-- The default call of an object-shape quansync function: a fresh
quansync generator over the wrapper body, with the call arguments as
environment. -/
def objCall (sIdx aIdx : Nat) (args : List Val) : Val :=
  .qgen (objBody sIdx aIdx args.length) args .knil

/-- `fn.sync` of an object-shape quansync function is the supplied sync
implementation itself (`fn.sync = options.sync`). -/
def objSyncEntry (syncImpl : List Val → Res) : List Val → Res := syncImpl

/-- `fn.async` of an object-shape quansync function is the supplied async
implementation itself (`fn.async = options.async`), with no wrapping: its
synchronous outcome is whatever the supplied implementation's is. -/
def objAsyncEntry (asyncImpl : List Val → Res) : List Val → Res := asyncImpl

/-- An implementation table with the sync implementation in slot `0` and
the async implementation in every other slot (slot `1` is used). -/
def table2 (syncImpl asyncImpl : List Val → Res) : Impls := fun i =>
  match i with
  | 0 => syncImpl
  | _ => asyncImpl

/-- `await fn.async(args)`: run the entry point; a synchronous throw
escapes as such is impossible to await — a thrown value rejects the
surrounding `await` — and a returned value is awaited. -/
def awaitCall (impls : Impls) (fuel : Nat) (entry : List Val → Res)
    (args : List Val) : Option Res :=
  match entry args with
  | .ok w => awaitVal impls fuel w
  | .error e => some (.error e)

/-- The implementation table `fromPromise(promise)` supplies to
`fromObject`: slot `0` is `() => { if (isThenable(promise)) throw new
QuansyncError(); return promise }`, slot `1` is
`() => Promise.resolve(promise)`. -/
def promImpls (v : Val) : Impls := fun i _ =>
  match i with
  | 0 => if isThenable v then .error quansyncErrorV else .ok v
  | _ => .ok (.prom (.resolved v))

/-- `fromPromise(v)()`: the default call of the eventual-value-shape
constructor — the wrapper generator over `promImpls v` with no
arguments (the captured promise `v` lives in the implementation table
`promImpls` of the captured promise, which the generator is driven
with). -/
def fromPromiseGen (_promise : Val) : Val :=
  .qgen (objBody 0 1 0) [] .knil

/-- `toGenerator(promise)`: an already-quansync generator is returned
unchanged; anything else goes through `fromPromise(promise)()`. -/
def toGenerator (v : Val) : Val :=
  if isQuansyncGenerator v then v else fromPromiseGen v

/-- `fn.sync` of a generator-function-shape quansync function: run the
generator function (building a fresh generator, body `b`, over the call
arguments) and drive it with `iterateSync` under the construction-time
hook. -/
def genFnSyncEntry (impls : Impls) (hook : Hook) (b : Body) (fuel : Nat)
    (args : List Val) : Option Res :=
  iterateSync impls hook fuel b args .knil

/-- `fn.async` of a generator-function-shape quansync function: build a
fresh generator and drive it with `iterateAsync` under the
construction-time hook.  The outcome models the settled result of the
promise the entry point returns; the entry point itself performs no
throwing work before `iterateAsync` (creating a generator runs no body
code), so an `.error` outcome is always a rejection. -/
def genFnAsyncEntry (impls : Impls) (hook : Hook) (b : Body) (fuel : Nat)
    (args : List Val) : Option Res :=
  iterateAsync impls hook fuel b args .knil

/-! ## Helper computations used by the theorems -/

/-- A computation that yields `v` once and returns the value fed back. -/
def probe (v : Val) : Body := .yieldBind (.lit v) (.ret (.var 0))

/-- A computation that delegates to a nested quansync invocation (yields a
fresh quansync generator over body `b`) and returns its result. -/
def delegate (b : Body) : Body := .yieldBind (.mkQgen b []) (.ret (.var 0))

/-- A computation body that throws `e` before its first yield. -/
def thrower (e : Val) : Body := .throwB (.lit e)

/-- A computation that delegates to body `b` inside a `try`, catching any
error and returning it as a normal result. -/
def recovering (b : Body) : Body := .tryB (delegate b) (.ret (.var 0))

/-- An implementation table that is never consulted by the computations it
is passed to. -/
def noImpls : Impls := fun _ _ => .ok .undefined

/-! ## Helper lemmas -/

/-- `unwrapYield` in sync mode passes a plain (non-thenable, non-sentinel)
value through unchanged. -/
theorem unwrapSync_plain (impls : Impls) (f : Nat) (v : Val)
    (h1 : isThenable v = false) (h2 : v ≠ .sym) :
    unwrapSync impls (f + 1) v = some (.ok v) := by
  cases v <;> simp_all [unwrapSync, isThenable]

/-- Awaiting a non-thenable value resolves immediately to it. -/
theorem awaitVal_plain (impls : Impls) (f : Nat) (v : Val)
    (h1 : isThenable v = false) :
    awaitVal impls (f + 1) v = some (.ok v) := by
  cases v <;> simp_all [awaitVal, isThenable]

/-- For a value that is neither the sentinel nor a quansync generator,
async resolution is plain awaiting. -/
theorem resolveAsync_await (impls : Impls) (f : Nat) (v : Val)
    (h1 : v ≠ .sym) (h2 : isQuansyncGenerator v = false) :
    resolveAsync impls (f + 1) v = awaitVal impls f v := by
  cases v <;> simp_all [resolveAsync, isQuansyncGenerator]

/-- Async resolution of a plain (non-thenable, non-sentinel) value
resolves immediately to it. -/
theorem resolveAsync_plain (impls : Impls) (f : Nat) (v : Val)
    (h1 : isThenable v = false) (h2 : v ≠ .sym) :
    resolveAsync impls (f + 2) v = some (.ok v) := by
  cases v <;> simp_all [resolveAsync, awaitVal, isThenable]

/-- `unwrapYield` in sync mode drives a yielded quansync generator with
`iterateSync` (with the default hook, as the source's recursive call
passes no `onYield`). -/
theorem unwrapSync_qgen (impls : Impls) (f : Nat) (b : Body) (e : List Val)
    (k : Konts) :
    unwrapSync impls (f + 1) (.qgen b e k) = iterateSync impls idHook f b e k := rfl

/-- `unwrapYield` in sync mode raises `QuansyncError` on a bare promise. -/
theorem unwrapSync_prom (impls : Impls) (f : Nat) (p : Prom) :
    unwrapSync impls (f + 1) (.prom p) = some (.error quansyncErrorV) := rfl

/-- Async resolution drives a yielded quansync generator with
`iterateAsync` (default hook) and awaits it. -/
theorem resolveAsync_qgen (impls : Impls) (f : Nat) (b : Body) (e : List Val)
    (k : Konts) :
    resolveAsync impls (f + 1) (.qgen b e k) = iterateAsync impls idHook f b e k := rfl

/-- Awaiting a promise resolved with `v` awaits `v` in turn. -/
theorem awaitVal_resolved (impls : Impls) (f : Nat) (v : Val) :
    awaitVal impls (f + 1) (.prom (.resolved v)) = awaitVal impls f v := rfl

/-- Awaiting a rejected promise delivers the rejection reason as an
error. -/
theorem awaitVal_rejected (impls : Impls) (f : Nat) (e : Val) :
    awaitVal impls (f + 1) (.prom (.rejected e)) = some (.error e) := rfl

/-- `unwrapYield` in sync mode answers the sentinel with the omitted
`isAsync` argument: `undefined`. -/
theorem unwrapSync_sym (impls : Impls) (f : Nat) :
    unwrapSync impls (f + 1) .sym = some (.ok .undefined) := rfl

/-- Async resolution answers the sentinel with `true`. -/
theorem resolveAsync_sym (impls : Impls) (f : Nat) :
    resolveAsync impls (f + 1) .sym = some (.ok (.vbool true)) := rfl

/-- Async resolution of a yielded promise awaits it. -/
theorem resolveAsync_prom (impls : Impls) (f : Nat) (p : Prom) :
    resolveAsync impls (f + 1) (.prom p) = awaitVal impls f (.prom p) := rfl

/-- Evaluating the argument-forwarding expressions `var s, …` against an
environment that is `post` sitting after a prefix of length `s`
reconstructs exactly `post`: the wrapper bodies forward the original call
arguments unchanged. -/
theorem evalExprs_argVars (impls : Impls) :
    ∀ (post pre : List Val),
      evalExprs impls (argVars post.length pre.length) (pre ++ post) = .ok post := by
  intro post
  induction post with
  | nil => intro pre; simp [argVars, evalExprs]
  | cons v rest ih =>
    intro pre
    have ih2 := ih (pre ++ [v])
    simp only [List.append_assoc, List.length_append, List.length_cons,
      List.length_nil, List.singleton_append, Nat.zero_add] at ih2
    simp [argVars, evalExprs, evalExpr, ih2]
    rw [List.getElem_append_right (Nat.le_refl _)]
    simp

/-- The one-binding instance of `evalExprs_argVars` the driven wrapper
bodies hit: one resumed value has been pushed in front of the call
arguments. -/
theorem evalExprs_argVars_cons (impls : Impls) (x : Val) (args : List Val) :
    evalExprs impls (argVars args.length 1) (x :: args) = .ok args :=
  evalExprs_argVars impls args [x]

/-! ## The claims -/

/-- Claim C5, counterexample.  The claim states that a computation that
yields the Context Tag receives the boolean `false` back when driven by
the blocking driver.  In the source, `iterateSync` calls
`unwrapYield(current.value)` with the `isAsync` argument omitted, and
`unwrapYield` answers the sentinel with that argument — `undefined`, not
the boolean `false`: the canonical Context-Tag computation driven
synchronously returns `undefined`. -/
theorem contextTag_sync_not_false :
    iterateSync noImpls idHook 9 (probe .sym) [] .knil = some (.ok .undefined)
    ∧ Val.undefined ≠ Val.vbool false :=
  ⟨rfl, fun h => Val.noConfusion h⟩

/-- Claim C5, amended: a computation that yields the Context Tag and
returns the value fed back resolves it to the boolean `true` under the
async driver and to `undefined` (the omitted `isAsync` argument, falsy
but not the boolean `false`) under the blocking driver, for the identical
invocation; likewise at the single-step level of `unwrapYield`. -/
theorem contextTag_resolution (impls : Impls) (env : List Val) (f : Nat) :
    iterateSync impls idHook (f + 9) (probe .sym) env .knil = some (.ok .undefined)
    ∧ iterateAsync impls idHook (f + 9) (probe .sym) env .knil = some (.ok (.vbool true))
    ∧ unwrapSync impls (f + 1) .sym = some (.ok .undefined)
    ∧ resolveAsync impls (f + 1) .sym = some (.ok (.vbool true)) := by
  refine ⟨?_, ?_, ?_, ?_⟩
  · simp [iterateSync, syncLoop, runBody, evalExpr, unwrapSync, idHook, probe]
  · simp [iterateAsync, asyncLoop, runBody, evalExpr, resolveAsync, awaitVal, idHook, probe]
  · simp [unwrapSync]
  · simp [resolveAsync]

/-- Claim C2: a computation that yields a bare thenable (a promise, which
is neither a quansync generator nor the Context Tag) fails under the
blocking driver with a `QuansyncError` raised at the offending yield,
and succeeds under the async driver, which awaits the value and resumes
with (and here returns) the resolved value. -/
theorem invalidSyncYield_boundary (impls : Impls) (env : List Val) (f : Nat)
    (p : Prom) (w : Val)
    (h1 : awaitVal impls (f + 6) (.prom p) = some (.ok w))
    (h2 : isThenable w = false) :
    iterateSync impls idHook (f + 9) (probe (.prom p)) env .knil
      = some (.error quansyncErrorV)
    ∧ iterateAsync impls idHook (f + 9) (probe (.prom p)) env .knil
      = some (.ok w) := by
  constructor
  · simp [iterateSync, syncLoop, runBody, evalExpr, unwrapSync, idHook, probe]
  · simp [iterateAsync, asyncLoop, runBody, evalExpr, resolveAsync, idHook, probe,
      h1, awaitVal_plain, h2]

/-- Claim C2, witness: yielding a promise resolved with `7`. -/
theorem invalidSyncYield_boundary_witness :
    iterateSync noImpls idHook 9 (probe (.prom (.resolved (.prim 7)))) [] .knil
      = some (.error quansyncErrorV)
    ∧ iterateAsync noImpls idHook 9 (probe (.prom (.resolved (.prim 7)))) [] .knil
      = some (.ok (.prim 7)) :=
  invalidSyncYield_boundary noImpls [] 0 (.resolved (.prim 7)) (.prim 7) rfl rfl

/-- Claim C10: a yielded plain host generator — an object with
`Symbol.iterator` but without the `__quansync` marker — is not recognized
by `isQuansyncGenerator`, so both drivers treat it as a plain value and
feed the identical object back, in sync and async mode alike; recursion
is keyed on the marker (`qgen`), not on structural generator detection. -/
theorem plainGenerator_passthrough (impls : Impls) (env : List Val) (f i : Nat)
    (b : Body) (e : List Val) (k : Konts) :
    iterateSync impls idHook (f + 9) (probe (.pgen i)) env .knil = some (.ok (.pgen i))
    ∧ iterateAsync impls idHook (f + 9) (probe (.pgen i)) env .knil = some (.ok (.pgen i))
    ∧ isQuansyncGenerator (.pgen i) = false
    ∧ isQuansyncGenerator (.qgen b e k) = true := by
  refine ⟨?_, ?_, rfl, rfl⟩
  · simp [iterateSync, syncLoop, runBody, evalExpr, unwrapSync, idHook, probe]
  · simp [iterateAsync, asyncLoop, runBody, evalExpr, resolveAsync, awaitVal, idHook, probe]

/-- Claim C3: an error raised while resolving a yielded value — here, an
error thrown (sync) or rejected (async) by a nested driven computation —
is injected into the generator through `generator.throw`, so a `try`/
`catch` inside the computation body observes it and may recover by
returning it as a normal result; the identical computation without the
`try`/`catch` lets the error escape the outermost body, surfacing it as a
direct throw from the blocking driver and as a rejection from the async
driver. -/
theorem error_injection (impls : Impls) (env : List Val) (f : Nat) (e : Val)
    (p : Prom)
    (h1 : isThenable e = false) (h2 : e ≠ .sym) :
    iterateSync impls idHook (f + 12) (recovering (thrower e)) env .knil = some (.ok e)
    ∧ iterateAsync impls idHook (f + 12) (recovering (thrower e)) env .knil = some (.ok e)
    ∧ iterateSync impls idHook (f + 12) (delegate (thrower e)) env .knil = some (.error e)
    ∧ iterateAsync impls idHook (f + 12) (delegate (thrower e)) env .knil = some (.error e)
    ∧ iterateSync impls idHook (f + 12) (.tryB (probe (.prom p)) (.ret (.var 0))) env .knil
      = some (.ok quansyncErrorV)
    ∧ iterateAsync impls idHook (f + 12) (.tryB (probe (.prom (.rejected e))) (.ret (.var 0)))
        env .knil = some (.ok e) := by
  refine ⟨?_, ?_, ?_, ?_, ?_, ?_⟩
  · simp [recovering, delegate, thrower, iterateSync, syncLoop, runBody, evalExpr,
      evalExprs, unwindK, unwrapSync_qgen, idHook, unwrapSync_plain, h1, h2]
  · simp [recovering, delegate, thrower, iterateAsync, asyncLoop, runBody, evalExpr,
      evalExprs, unwindK, resolveAsync_qgen, idHook, awaitVal_plain, h1]
  · simp [delegate, thrower, iterateSync, syncLoop, runBody, evalExpr,
      evalExprs, unwindK, unwrapSync_qgen, idHook]
  · simp [delegate, thrower, iterateAsync, asyncLoop, runBody, evalExpr,
      evalExprs, unwindK, resolveAsync_qgen, idHook]
  · simp [probe, iterateSync, syncLoop, runBody, evalExpr, unwindK,
      unwrapSync_prom, unwrapSync_plain, quansyncErrorV, isThenable, idHook]
  · simp [probe, iterateAsync, asyncLoop, runBody, evalExpr, unwindK,
      resolveAsync_prom, awaitVal_rejected, awaitVal_plain, h1, idHook]

/-- Claim C3, witness: the nested computation throws an `Error`
instance. -/
theorem error_injection_witness :
    iterateSync noImpls idHook 12 (recovering (thrower (.errObj "Error" "boom"))) [] .knil
      = some (.ok (.errObj "Error" "boom"))
    ∧ iterateAsync noImpls idHook 12 (recovering (thrower (.errObj "Error" "boom"))) [] .knil
      = some (.ok (.errObj "Error" "boom"))
    ∧ iterateSync noImpls idHook 12 (delegate (thrower (.errObj "Error" "boom"))) [] .knil
      = some (.error (.errObj "Error" "boom"))
    ∧ iterateAsync noImpls idHook 12 (delegate (thrower (.errObj "Error" "boom"))) [] .knil
      = some (.error (.errObj "Error" "boom"))
    ∧ iterateSync noImpls idHook 12
        (.tryB (probe (.prom (.resolved (.prim 1)))) (.ret (.var 0))) [] .knil
      = some (.ok quansyncErrorV)
    ∧ iterateAsync noImpls idHook 12
        (.tryB (probe (.prom (.rejected (.errObj "Error" "boom")))) (.ret (.var 0))) [] .knil
      = some (.ok (.errObj "Error" "boom")) :=
  error_injection noImpls [] 0 (.errObj "Error" "boom") (.resolved (.prim 1))
    rfl (fun h => Val.noConfusion h)

/-- The hook used to witness single invocation of `onYield`: it increments
a numeric yielded value, so the driven result records how many times the
hook ran. -/
def incHook : Hook := fun x _ =>
  match x with
  | .prim k => .ok (.prim (k + 1))
  | _ => .ok .undefined

/-- Claim C8: for a quansync function built from a generator function with
an `onYield` option, the hook runs once on the yield step in both driver
variants, before resolution, receiving the yielded value and the mode
flag — `false` in the blocking driver, `true` in the async driver — and
its return value replaces the yielded value for resolution (the resumed
and returned value is the hook's output, resolved in place of the
original yield). -/
theorem onYield_hook (impls : Impls) (hook : Hook) (v w w' : Val)
    (env : List Val) (f : Nat)
    (h1 : hook v false = .ok w) (hw1 : isThenable w = false) (hw2 : w ≠ .sym)
    (h2 : hook v true = .ok w') (hw3 : isThenable w' = false) (hw4 : w' ≠ .sym) :
    genFnSyncEntry impls hook (probe v) (f + 9) env = some (.ok w)
    ∧ genFnAsyncEntry impls hook (probe v) (f + 9) env = some (.ok w') := by
  constructor
  · simp [genFnSyncEntry, probe, iterateSync, syncLoop, runBody, evalExpr,
      h1, unwrapSync_plain, hw1, hw2]
  · simp [genFnAsyncEntry, probe, iterateAsync, asyncLoop, runBody, evalExpr,
      h2, resolveAsync_plain, awaitVal_plain, hw3, hw4]

/-- Claim C8, witness: with the incrementing hook, a computation yielding
`7` returns `8` — the hook ran exactly once on the step — in both
variants. -/
theorem onYield_hook_witness :
    genFnSyncEntry noImpls incHook (probe (.prim 7)) 9 [] = some (.ok (.prim 8))
    ∧ genFnAsyncEntry noImpls incHook (probe (.prim 7)) 9 [] = some (.ok (.prim 8)) :=
  onYield_hook noImpls incHook (.prim 7) (.prim 8) (.prim 8) [] 0
    rfl rfl (fun h => Val.noConfusion h) rfl rfl (fun h => Val.noConfusion h)

/-- An object-shape async implementation that throws synchronously
(permitted by the input surface: any function can throw before producing
its promise). -/
def throwingAsyncImpl : List Val → Res := fun _ => .error (.errObj "Error" "boom")

/-- Claim C6, counterexample.  `fromObject` sets `fn.async =
options.async` with no wrapping, so for an object-shape quansync function
whose supplied async implementation throws synchronously, calling
`fn.async(args)` raises synchronously instead of returning an eventual
value — the error bypasses the rejection channel. -/
theorem asyncEntry_sync_throw :
    objAsyncEntry throwingAsyncImpl [] = .error (.errObj "Error" "boom") := rfl

/-- Claim C6, amended: for a quansync function built from a generator
function, `fn.async` performs no throwing work before entering
`iterateAsync`, an async function, so even a body that throws before its
first yield produces a rejection, never a synchronous throw; the
promise-shape async implementation (`() => Promise.resolve(promise)`)
never throws; but for the object shape `fn.async` is the supplied async
implementation itself, so it raises synchronously exactly when that
implementation does. -/
theorem asyncEntry_error_channel (aImpl : List Val → Res) (impls : Impls)
    (hook : Hook) (e v : Val) (args : List Val) (f : Nat) :
    objAsyncEntry aImpl = aImpl
    ∧ genFnAsyncEntry impls hook (thrower e) (f + 9) args = some (.error e)
    ∧ promImpls v 1 args = .ok (.prom (.resolved v)) := by
  refine ⟨rfl, ?_, rfl⟩
  simp [genFnAsyncEntry, thrower, iterateAsync, asyncLoop, runBody, evalExpr, unwindK]

/-- Claim C9: for an object-shape quansync function, driving its default
call with the blocking driver runs only the supplied sync implementation
— the result is that implementation's, applied once to the forwarded
arguments, and it is the same for every async implementation `a'` sitting
in the other slot; symmetrically, the async drive runs only the supplied
async implementation, for every sync implementation `s'`. -/
theorem object_mode_isolation (s s' a a' : List Val → Res) (args : List Val)
    (f : Nat) (v u : Val)
    (hs : s args = .ok v)
    (hv1 : isThenable v = false) (hv2 : v ≠ .sym)
    (ha : a args = .ok (.prom (.resolved u)))
    (hu : isThenable u = false) :
    iterateSync (table2 s a') idHook (f + 12) (objBody 0 1 args.length) args .knil
      = some (.ok v)
    ∧ iterateAsync (table2 s' a) idHook (f + 12) (objBody 0 1 args.length) args .knil
      = some (.ok u) := by
  constructor
  · simp [objBody, iterateSync, syncLoop, runBody, evalExpr, truthy, table2,
      unwrapSync_sym, evalExprs_argVars_cons, hs, unwrapSync_plain, hv1, hv2, idHook]
  · simp [objBody, iterateAsync, asyncLoop, runBody, evalExpr, truthy, table2,
      resolveAsync_sym, resolveAsync_prom, awaitVal_resolved, evalExprs_argVars_cons,
      ha, awaitVal_plain, hu, idHook]

/-- Claim C9, witness: the sync slot answers `3` and the async slot a
promise of `4`; the other slot throws, and is demonstrably never run. -/
theorem object_mode_isolation_witness :
    iterateSync (table2 (fun _ => .ok (.prim 3)) throwingAsyncImpl) idHook 12
      (objBody 0 1 0) [] .knil = some (.ok (.prim 3))
    ∧ iterateAsync (table2 throwingAsyncImpl (fun _ => .ok (.prom (.resolved (.prim 4)))))
        idHook 12 (objBody 0 1 0) [] .knil = some (.ok (.prim 4)) :=
  object_mode_isolation (fun _ => .ok (.prim 3)) throwingAsyncImpl
    (fun _ => .ok (.prom (.resolved (.prim 4)))) throwingAsyncImpl [] 0
    (.prim 3) (.prim 4) rfl rfl (fun h => Val.noConfusion h) rfl rfl

/-- Claim C1: for an object-shape quansync function whose implementation
pair matches — the sync implementation returns `v` and awaiting the async
implementation's result resolves to the same `v` — and on which neither
mode errors, all entry points agree: `fn.sync(args)` returns `v`, `await
fn.async(args)` resolves to `v`, and the default call driven by the
blocking driver and by the async driver both complete with `v`. -/
theorem mode_equivalence (s a : List Val → Res) (args : List Val) (v w : Val)
    (f : Nat)
    (h1 : s args = .ok v)
    (h2 : a args = .ok w)
    (h3 : awaitVal (table2 s a) (f + 8) w = some (.ok v))
    (h4 : isThenable v = false) (h5 : v ≠ .sym)
    (h6 : w ≠ .sym) (h7 : isQuansyncGenerator w = false) :
    objSyncEntry s args = .ok v
    ∧ awaitCall (table2 s a) (f + 8) (objAsyncEntry a) args = some (.ok v)
    ∧ iterateSync (table2 s a) idHook (f + 12) (objBody 0 1 args.length) args .knil
      = some (.ok v)
    ∧ iterateAsync (table2 s a) idHook (f + 12) (objBody 0 1 args.length) args .knil
      = some (.ok v) := by
  refine ⟨h1, ?_, ?_, ?_⟩
  · simp [awaitCall, objAsyncEntry, h2, h3]
  · simp [objBody, iterateSync, syncLoop, runBody, evalExpr, truthy, table2,
      unwrapSync_sym, evalExprs_argVars_cons, h1, unwrapSync_plain, h4, h5, idHook]
  · simp [objBody, iterateAsync, asyncLoop, runBody, evalExpr, truthy, table2,
      resolveAsync_sym, resolveAsync_await, evalExprs_argVars_cons,
      h2, h3, h6, h7, awaitVal_plain, h4, idHook]

/-- Claim C1, witness: a matching pair returning `3` directly and through
a resolved promise. -/
theorem mode_equivalence_witness :
    objSyncEntry (fun _ => .ok (.prim 3)) [] = .ok (.prim 3)
    ∧ awaitCall (table2 (fun _ => .ok (.prim 3)) (fun _ => .ok (.prom (.resolved (.prim 3)))))
        8 (objAsyncEntry (fun _ => .ok (.prom (.resolved (.prim 3))))) []
      = some (.ok (.prim 3))
    ∧ iterateSync (table2 (fun _ => .ok (.prim 3)) (fun _ => .ok (.prom (.resolved (.prim 3)))))
        idHook 12 (objBody 0 1 0) [] .knil = some (.ok (.prim 3))
    ∧ iterateAsync (table2 (fun _ => .ok (.prim 3)) (fun _ => .ok (.prom (.resolved (.prim 3)))))
        idHook 12 (objBody 0 1 0) [] .knil = some (.ok (.prim 3)) :=
  mode_equivalence (fun _ => .ok (.prim 3)) (fun _ => .ok (.prom (.resolved (.prim 3))))
    [] (.prim 3) (.prom (.resolved (.prim 3))) 0 rfl rfl rfl rfl
    (fun h => Val.noConfusion h) (fun h => Val.noConfusion h) rfl

/-- Claim C7: `toGenerator` returns an already-quansync generator
unchanged (the identical object, no double wrapping); any other
non-sentinel value `v` is lifted to `fromPromise(v)()`, a fresh
computation whose blocking drive returns `v` when `v` is not thenable and
raises `QuansyncError` when it is, and whose async drive resolves to the
awaited `v`. -/
theorem toGenerator_lift (b : Body) (env : List Val) (k : Konts) (v z : Val)
    (f : Nat)
    (hv : isQuansyncGenerator v = false) (hs : v ≠ .sym)
    (h3 : awaitVal (promImpls v) (f + 7) v = some (.ok z))
    (hz : isThenable z = false) :
    toGenerator (.qgen b env k) = .qgen b env k
    ∧ toGenerator v = fromPromiseGen v
    ∧ (isThenable v = false →
        iterateSync (promImpls v) idHook (f + 12) (objBody 0 1 0) [] .knil
          = some (.ok v))
    ∧ (isThenable v = true →
        iterateSync (promImpls v) idHook (f + 12) (objBody 0 1 0) [] .knil
          = some (.error quansyncErrorV))
    ∧ iterateAsync (promImpls v) idHook (f + 12) (objBody 0 1 0) [] .knil
      = some (.ok z) := by
  refine ⟨rfl, by simp [toGenerator, hv], ?_, ?_, ?_⟩
  · intro ht
    simp [objBody, argVars, iterateSync, syncLoop, runBody, evalExpr, evalExprs,
      truthy, promImpls, ht, unwrapSync_sym, unwrapSync_plain, hs, idHook]
  · intro ht
    simp [objBody, argVars, iterateSync, syncLoop, runBody, evalExpr, evalExprs,
      truthy, promImpls, ht, unwrapSync_sym, unwindK, idHook]
  · simp [objBody, argVars, iterateAsync, asyncLoop, runBody, evalExpr, evalExprs,
      truthy, promImpls, resolveAsync_sym, resolveAsync_prom, awaitVal_resolved,
      h3, awaitVal_plain, hz, idHook]

/-- Claim C7, witness: lifting the plain value `4`. -/
theorem toGenerator_lift_witness :
    toGenerator (.qgen (.ret (.lit .undefined)) [] .knil) = .qgen (.ret (.lit .undefined)) [] .knil
    ∧ toGenerator (.prim 4) = fromPromiseGen (.prim 4)
    ∧ (isThenable (.prim 4) = false →
        iterateSync (promImpls (.prim 4)) idHook 12 (objBody 0 1 0) [] .knil
          = some (.ok (.prim 4)))
    ∧ (isThenable (.prim 4) = true →
        iterateSync (promImpls (.prim 4)) idHook 12 (objBody 0 1 0) [] .knil
          = some (.error quansyncErrorV))
    ∧ iterateAsync (promImpls (.prim 4)) idHook 12 (objBody 0 1 0) [] .knil
      = some (.ok (.prim 4)) :=
  toGenerator_lift (.ret (.lit .undefined)) [] .knil (.prim 4) (.prim 4) 0
    rfl (fun h => Val.noConfusion h) rfl rfl

/-- A chain of `n` nested quansync delegations around a body that simply
returns `v`. -/
def nestS (v : Val) : Nat → Body
  | 0 => .ret (.lit v)
  | n + 1 => delegate (nestS v n)

/-- A chain of `n` nested quansync delegations around a body that yields a
promise resolved with `v` and returns the value fed back. -/
def nestP (v : Val) : Nat → Body
  | 0 => probe (.prom (.resolved v))
  | n + 1 => delegate (nestP v n)

/-- Fuel sufficient to drive a delegation chain of depth `n`. -/
def nestFuel : Nat → Nat
  | 0 => 8
  | n + 1 => nestFuel n + 8

/-- Claim C4: a yielded quansync generator (a value carrying the
`__quansync` marker) is recursively driven by the same variant —
`unwrapYield` hands it to `iterateSync` under the blocking driver and to
`iterateAsync` under the async driver — and this holds transitively at
every nesting depth `n`: the blocking driver completes a depth-`n` chain
of delegations around a plain return without touching any eventual-value
machinery, and the async driver completes a depth-`n` chain around a
yielded promise, awaiting it at the bottom. -/
theorem nested_same_mode_recursion (impls : Impls) (v : Val)
    (h1 : isThenable v = false) (h2 : v ≠ .sym) :
    (∀ (n fuel : Nat), nestFuel n ≤ fuel →
      iterateSync impls idHook fuel (nestS v n) [] .knil = some (.ok v)
      ∧ iterateAsync impls idHook fuel (nestP v n) [] .knil = some (.ok v))
    ∧ (∀ (g : Nat) (b : Body) (e : List Val) (k : Konts),
        unwrapSync impls (g + 1) (.qgen b e k) = iterateSync impls idHook g b e k)
    ∧ (∀ (g : Nat) (b : Body) (e : List Val) (k : Konts),
        resolveAsync impls (g + 1) (.qgen b e k) = iterateAsync impls idHook g b e k) := by
  refine ⟨?_, fun _ _ _ _ => rfl, fun _ _ _ _ => rfl⟩
  intro n
  induction n with
  | zero =>
    intro fuel h
    obtain ⟨g, rfl⟩ : ∃ g, fuel = g + 8 :=
      ⟨fuel - 8, by simp [nestFuel] at h; omega⟩
    constructor
    · simp [nestS, iterateSync, syncLoop, runBody, evalExpr, unwrapSync_plain,
        h1, h2, idHook]
    · simp [nestP, probe, iterateAsync, asyncLoop, runBody, evalExpr,
        resolveAsync_prom, awaitVal_resolved, awaitVal_plain, h1, idHook]
  | succ n ih =>
    intro fuel h
    have h8 : nestFuel n + 8 ≤ fuel := by simpa [nestFuel] using h
    obtain ⟨g, rfl⟩ : ∃ g, fuel = g + 8 := ⟨fuel - 8, by omega⟩
    obtain ⟨ihS, ihA⟩ := ih (g + 5) (by omega)
    constructor
    · rw [show nestS v (n + 1) = delegate (nestS v n) from rfl,
        show iterateSync impls idHook (g + 8) (delegate (nestS v n)) [] .knil
          = syncLoop impls idHook (g + 7)
              (runBody impls (g + 7) (delegate (nestS v n)) [] .knil) from rfl]
      simp only [delegate, runBody, evalExpr, evalExprs, syncLoop, idHook,
        unwrapSync_qgen]
      rw [ihS]
      simp [syncLoop, runBody, evalExpr, unwrapSync_plain, h1, h2, idHook]
    · rw [show nestP v (n + 1) = delegate (nestP v n) from rfl,
        show iterateAsync impls idHook (g + 8) (delegate (nestP v n)) [] .knil
          = asyncLoop impls idHook (g + 7)
              (runBody impls (g + 7) (delegate (nestP v n)) [] .knil) from rfl]
      simp only [delegate, runBody, evalExpr, evalExprs, asyncLoop, idHook,
        resolveAsync_qgen]
      rw [ihA]
      simp [asyncLoop, runBody, evalExpr, awaitVal_plain, h1, idHook]

/-- Claim C4, witness: a depth-2 chain around `5`, in both variants. -/
theorem nested_same_mode_recursion_witness :
    iterateSync noImpls idHook 24 (nestS (.prim 5) 2) [] .knil = some (.ok (.prim 5))
    ∧ iterateAsync noImpls idHook 24 (nestP (.prim 5) 2) [] .knil = some (.ok (.prim 5)) :=
  (nested_same_mode_recursion noImpls (.prim 5) rfl (fun h => Val.noConfusion h)).1
    2 24 (by decide)

end Quansync
